import Mathlib

/-!
# Heart Disease Prediction App — shallow embedding

A Lean 4 model of `src/app.py` (a Streamlit application that collects a
patient record, evaluates a pre-trained classifier on a 13-element feature
vector, computes a heuristic risk-factor breakdown, renders charts, and
assembles a PDF report).

Integers entered through widgets are modelled as `ℤ`; the one decimal field
(`oldpeak`, step 0.1) as `ℚ`.  The opaque pickled model is a parameter
`model : List ℚ → ℤ`.  Streamlit widgets are modelled by the value they
yield after the source's own post-processing lines.
-/

namespace HeartApp

/-- The raw form state at the moment the "Generate Report" button is
pressed: each widget's selected value, before the source's encoding lines
run.  `age` is `none` while the number input is still empty
(`value=None` in the source); the selectboxes with a `"Select"`
placeholder hold the chosen label string. -/
structure RawInput where
  age : Option ℤ
  sexChoice : String
  cpChoice : String
  trestbps : ℤ
  chol : ℤ
  fbsChoice : String
  familyHistoryChoice : String
  restecgChoice : String
  thalach : ℤ
  exangChoice : String
  oldpeak : ℚ
  slopeChoice : String
  ca : ℤ
  thalChoice : String
  smoking : Bool
  alcohol : Bool
  physical_activity : String
  stress : String
deriving Repr, DecidableEq

/-- The 4 chest-pain options shown after the `"Select"` placeholder
(app.py lines 35–45). -/
def cpOptions : List String :=
  ["Typical Angina (chest pain on exertion)",
   "Atypical Angina (chest pain not related to exertion)",
   "Non-anginal Pain (not heart-related)",
   "Asymptomatic (no pain)"]

/-- The 3 ECG options (app.py lines 54–58); no placeholder, default index 0. -/
def restecgOptions : List String :=
  ["Normal ECG", "ST-T wave abnormality",
   "Probable/definite left ventricular hypertrophy"]

/-- The 3 slope options after the placeholder (app.py lines 63–64). -/
def slopeOptions : List String :=
  ["Upsloping (gradual increase)", "Flat (no change)", "Downsloping (decreases)"]

/-- The 3 thal options after the placeholder (app.py lines 66–67). -/
def thalOptions : List String :=
  ["Normal blood flow", "Fixed defect", "Reversible defect"]

/-- Line 34: `sex = None if sex == "Select" else (0 if sex == "Female" else 1)`. -/
def sexOf (r : RawInput) : Option ℤ :=
  if r.sexChoice = "Select" then none
  else some (if r.sexChoice = "Female" then 0 else 1)

/-- Lines 41–45: `cp = None if cp == "Select" else [...].index(cp)`. -/
def cpOf (r : RawInput) : Option ℤ :=
  if r.cpChoice = "Select" then none
  else some (cpOptions.indexOf r.cpChoice : ℕ)

/-- Line 49: `fbs = 0 if fbs == "≤120 mg/dl (Normal)" else 1`. -/
def fbsOf (r : RawInput) : ℤ :=
  if r.fbsChoice = "≤120 mg/dl (Normal)" then 0 else 1

/-- Line 51: `family_history = 1 if family_history == "Yes" else 0`. -/
def familyHistoryOf (r : RawInput) : ℤ :=
  if r.familyHistoryChoice = "Yes" then 1 else 0

/-- Line 58: `restecg = [...].index(restecg)`; this widget has no placeholder. -/
def restecgOf (r : RawInput) : ℤ :=
  (restecgOptions.indexOf r.restecgChoice : ℕ)

/-- Line 61: `exang = None if exang == "Select" else (0 if exang == "No chest pain after exercise" else 1)`. -/
def exangOf (r : RawInput) : Option ℤ :=
  if r.exangChoice = "Select" then none
  else some (if r.exangChoice = "No chest pain after exercise" then 0 else 1)

/-- Line 64: `slope = None if slope == "Select" else [...].index(slope)`. -/
def slopeOf (r : RawInput) : Option ℤ :=
  if r.slopeChoice = "Select" then none
  else some (slopeOptions.indexOf r.slopeChoice : ℕ)

/-- Line 67: `thal = None if thal == "Select" else [...].index(thal) + 1`:
the 0-based option index **plus one**, so the encoded domain is {1,2,3}. -/
def thalOf (r : RawInput) : Option ℤ :=
  if r.thalChoice = "Select" then none
  else some ((thalOptions.indexOf r.thalChoice : ℕ) + 1)

/-- The fully-encoded patient record available inside the `else` branch of
the button handler, once the `None`-check on the six required fields has
passed. -/
structure Encoded where
  age : ℤ
  sex : ℤ
  cp : ℤ
  trestbps : ℤ
  chol : ℤ
  fbs : ℤ
  family_history : ℤ
  restecg : ℤ
  thalach : ℤ
  exang : ℤ
  oldpeak : ℚ
  slope : ℤ
  ca : ℤ
  thal : ℤ
  smoking : Bool
  alcohol : Bool
  physical_activity : String
  stress : String
deriving Repr, DecidableEq

/-- The validation step of the handler: `if None in [age, sex, cp, exang,
slope, thal]` (line 82).  `encode` succeeds exactly when all six required
fields are set, and then packages every encoded value. -/
def encode (r : RawInput) : Option Encoded :=
  match r.age, sexOf r, cpOf r, exangOf r, slopeOf r, thalOf r with
  | some a, some s, some c, some e, some sl, some t =>
    some { age := a, sex := s, cp := c, trestbps := r.trestbps, chol := r.chol,
           fbs := fbsOf r, family_history := familyHistoryOf r,
           restecg := restecgOf r, thalach := r.thalach, exang := e,
           oldpeak := r.oldpeak, slope := sl, ca := r.ca, thal := t,
           smoking := r.smoking, alcohol := r.alcohol,
           physical_activity := r.physical_activity, stress := r.stress }
  | _, _, _, _, _, _ => none

/-- Lines 85–87: `input_data = np.array([[age, sex, cp, trestbps, chol, fbs,
restecg, thalach, exang, oldpeak, slope, ca, thal]])`, the single row
passed to `model.predict`. -/
def input_data (p : Encoded) : List ℚ :=
  [(p.age : ℚ), (p.sex : ℚ), (p.cp : ℚ), (p.trestbps : ℚ), (p.chol : ℚ),
   (p.fbs : ℚ), (p.restecg : ℚ), (p.thalach : ℚ), (p.exang : ℚ),
   p.oldpeak, (p.slope : ℚ), (p.ca : ℚ), (p.thal : ℚ)]

/-- Lines 102–103, `age_note`: set exactly when `age > 50`, otherwise the
empty string (Python's falsy `""`). -/
def age_note (p : Encoded) : String :=
  if p.age > 50 then
    "Since age is a natural risk factor, regular screenings are recommended."
  else ""

/-- The `risk_factors` list after the ten rule lines 104–113 ran, in source order.
Each rule contributes its message when its threshold condition holds. -/
def risk_factors (p : Encoded) : List String :=
  (if p.trestbps > 130 then ["High blood pressure detected."] else []) ++
  (if p.chol > 240 then ["High cholesterol level."] else []) ++
  (if p.fbs = 1 then ["High fasting blood sugar (possible diabetes risk)."] else []) ++
  (if p.exang = 1 then ["Exercise-induced chest pain is a warning sign."] else []) ++
  (if p.oldpeak > 2 then ["Significant ST depression (possible ischemia)."] else []) ++
  (if p.family_history = 1 then ["Family history of heart disease."] else []) ++
  (if p.smoking then ["Smoking increases risk."] else []) ++
  (if p.alcohol then ["Alcohol consumption can increase risk."] else []) ++
  (if p.physical_activity = "Low" then ["Low physical activity is a risk factor."] else []) ++
  (if p.stress = "High" then ["High stress levels may contribute to heart disease."] else [])

/-- The `weights` list after the same ten rule lines 104–113: each rule appends its
weight alongside its message. -/
def weights (p : Encoded) : List ℤ :=
  (if p.trestbps > 130 then [3] else []) ++
  (if p.chol > 240 then [3] else []) ++
  (if p.fbs = 1 then [2] else []) ++
  (if p.exang = 1 then [2] else []) ++
  (if p.oldpeak > 2 then [4] else []) ++
  (if p.family_history = 1 then [2] else []) ++
  (if p.smoking then [2] else []) ++
  (if p.alcohol then [1] else []) ++
  (if p.physical_activity = "Low" then [2] else []) ++
  (if p.stress = "High" then [1] else [])

/-- The always-rendered bar chart (lines 124–130). -/
structure BarChart where
  labels : List String
  values : List ℚ
  colors : List String
  ylabel : String
  title : String
deriving Repr, DecidableEq

/-- Lines 124–129, `fig` and `ax.bar(...)`: five raw indicator values. -/
def barChart (p : Encoded) : BarChart :=
  { labels := ["Age", "Resting BP", "Cholesterol", "Max HR", "ST Depression"],
    values := [(p.age : ℚ), (p.trestbps : ℚ), (p.chol : ℚ), (p.thalach : ℚ), p.oldpeak],
    colors := ["#4CAF50", "#2196F3", "#FF9800", "#9C27B0", "#F44336"],
    ylabel := "Value",
    title := "Patient Health Indicators" }

/-- The conditional pie chart (lines 132–139).  `colors = []` stands for
matplotlib's default colour cycling in the multi-factor branch. -/
structure PieChart where
  slices : List ℤ
  labels : List String
  colors : List String
  startangle : ℤ
  title : String
deriving Repr, DecidableEq

/-- Lines 132–139, `fig2`: built only when `prediction == 0 and
risk_factors` (non-empty); single-factor branch uses
`[weights[0], sum(weights)]` with labels `[risk_factors[0], "Other"]`. -/
def pieChart (prediction : ℤ) (rf : List String) (ws : List ℤ) : Option PieChart :=
  if prediction = 0 ∧ rf ≠ [] then
    some (if rf.length = 1 then
      { slices := [ws.headI, ws.sum], labels := [rf.headI, "Other"],
        colors := ["#FF7043", "#E0E0E0"], startangle := 90,
        title := "Risk Factor Severity Contribution" }
    else
      { slices := ws, labels := rf, colors := [], startangle := 90,
        title := "Risk Factor Severity Contribution" })
  else none

/-- One flowable of the PDF `elements` list (reportlab platypus). -/
inductive PdfElement where
  | paragraph (text : String) (style : String)
  | spacer
  | hr
  | table (rows : List (List String))
  | image (chart : String) (width : ℚ) (height : ℚ)
deriving Repr, DecidableEq

/-- The patient-details table `data` (lines 213–226): a header row and
eleven attribute rows. -/
def detailData (p : Encoded) : List (List String) :=
  [["Attribute", "Value"],
   ["Age", toString p.age],
   ["Sex", if p.sex = 1 then "Male" else "Female"],
   ["Resting BP (mmHg)", toString p.trestbps],
   ["Cholesterol (mg/dl)", toString p.chol],
   ["Max Heart Rate", toString p.thalach],
   ["Fasting Blood Sugar", if p.fbs = 1 then ">120 mg/dl" else "≤120 mg/dl"],
   ["Family History", if p.family_history = 1 then "Yes" else "No"],
   ["Smoking", if p.smoking then "Yes" else "No"],
   ["Alcohol", if p.alcohol then "Yes" else "No"],
   ["Physical Activity", p.physical_activity],
   ["Stress Level", p.stress]]

/-- The six fixed recommendation strings `recs` (lines 256–263). -/
def recs : List String :=
  ["Maintain a balanced diet low in saturated fats and cholesterol.",
   "Engage in regular physical activity.",
   "Monitor blood pressure, sugar, and cholesterol regularly.",
   "Avoid smoking and limit alcohol intake.",
   "Manage stress with mindfulness or relaxation exercises.",
   "Schedule regular health check-ups."]

/-- The three resource lines embedded in the PDF, `resources` (lines 292–296). -/
def pdfResources : List String :=
  ["World Health Organization (WHO): https://www.who.int/india/health-topics/cardiovascular-diseases",
   "World Heart Federation: https://world-heart-federation.org/",
   "Healthy Lifestyle Guide: https://www.cdc.gov/heart-disease/prevention/index.html"]

/-- The three (name, URL) markdown links of the on-page "Useful Resources"
block (lines 158–162). -/
def pageResources : List (String × String) :=
  [("World Health Organization (WHO)", "https://www.who.int/india/health-topics/cardiovascular-diseases"),
   ("World Heart Federation", "https://world-heart-federation.org/"),
   ("Healthy Lifestyle Guide", "https://www.cdc.gov/heart-disease/prevention.htm")]

/-- The PDF `elements` list assembled in lines 189–298, in source append
order.  `today` is `datetime.date.today()` rendered as a string; `aspect`
is the bar figure's height/width ratio (`fig.get_size_inches()`, runtime
data of matplotlib), used for the bar image's scaled height. -/
def pdfElements (today : String) (aspect : ℚ) (prediction : ℤ) (p : Encoded)
    (rf : List String) (note : String) : List PdfElement :=
  [PdfElement.paragraph "Heart Disease Prediction Report" "TitleStyle",
   PdfElement.spacer, PdfElement.spacer, PdfElement.spacer,
   PdfElement.paragraph ("Date: " ++ today) "NormalStyle",
   PdfElement.spacer,
   PdfElement.paragraph
     ("Prediction: " ++ (if prediction = 1 then "Low Risk" else "High Risk"))
     "PredictionStyle",
   PdfElement.spacer, PdfElement.hr, PdfElement.spacer,
   PdfElement.table (detailData p),
   PdfElement.spacer,
   PdfElement.paragraph "Risk Factors:" "RiskHeadingStyle"] ++
  (if rf ≠ [] then rf.map (fun s => PdfElement.paragraph ("- " ++ s) "NormalStyle")
   else [PdfElement.paragraph "None detected" "NormalStyle"]) ++
  (if note ≠ "" then [PdfElement.paragraph ("- " ++ note) "NormalStyle"] else []) ++
  [PdfElement.spacer, PdfElement.hr, PdfElement.spacer,
   PdfElement.paragraph "Recommendations:" "RecHeadingStyle"] ++
  recs.map (fun s => PdfElement.paragraph ("- " ++ s) "NormalStyle") ++
  [PdfElement.spacer,
   PdfElement.image "bar" 400 (400 * aspect)] ++
  (if prediction = 0 ∧ rf ≠ [] then
     [PdfElement.image "pie" 400 200, PdfElement.spacer] else []) ++
  [PdfElement.paragraph "Useful Resources:" "ResourceHeadingStyle"] ++
  pdfResources.map (fun s => PdfElement.paragraph ("- " ++ s) "NormalStyle")

/-- Everything the success branch of the handler renders and offers. -/
structure ReportData where
  input_data : List ℚ
  prediction : ℤ
  banner : String
  risk_factors : List String
  weights : List ℤ
  age_note : String
  noRiskInfo : Bool
  bar : BarChart
  pie : Option PieChart
  elements : List PdfElement
  fileName : String
  mime : String
deriving Repr, DecidableEq

/-- Outcome of one press of "Generate Report" (lines 81–303): either the
validation error (line 83) with nothing else produced, or the whole
success branch. -/
inductive ActionResult where
  | validationError (message : String)
  | success (d : ReportData)
deriving Repr, DecidableEq

/-- The success branch (lines 84–303) on an encoded record. -/
def runSuccess (model : List ℚ → ℤ) (today : String) (aspect : ℚ)
    (p : Encoded) : ReportData :=
  let vec := input_data p
  let prediction := model vec
  let rf := risk_factors p
  let ws := weights p
  let note := age_note p
  { input_data := vec,
    prediction := prediction,
    banner := if prediction = 1
      then "✅ Low Risk: You are unlikely to have heart disease."
      else "⚠️ High Risk: Patient likely has heart disease.",
    risk_factors := rf,
    weights := ws,
    age_note := note,
    noRiskInfo := rf.length == 0 && note == "",
    bar := barChart p,
    pie := pieChart prediction rf ws,
    elements := pdfElements today aspect prediction p rf note,
    fileName := "heart_report.pdf",
    mime := "application/pdf" }

/-- One full "Generate Report" action: the `None`-check on the six
required fields, then either the error message or the success branch. -/
def generateReport (model : List ℚ → ℤ) (today : String) (aspect : ℚ)
    (r : RawInput) : ActionResult :=
  match encode r with
  | none => ActionResult.validationError
      "⚠️ Please fill in all fields before generating the report."
  | some p => ActionResult.success (runSuccess model today aspect p)

/-- Projects the data of a successful action, `none` on the validation error. -/
def resultData : ActionResult → Option ReportData
  | ActionResult.validationError _ => none
  | ActionResult.success d => some d

/-- The worked example of §8 item 3 of the specification: age 55, male,
typical angina, bp 140, chol 250, fbs high, normal ECG, max HR 150,
exercise angina, oldpeak 3.0, upsloping, ca 0, thal "Normal blood flow"
(encoded 1), smoker, no alcohol, low activity, high stress. -/
def c3Input : RawInput :=
  { age := some 55, sexChoice := "Male",
    cpChoice := "Typical Angina (chest pain on exertion)",
    trestbps := 140, chol := 250, fbsChoice := ">120 mg/dl (High)",
    familyHistoryChoice := "No", restecgChoice := "Normal ECG", thalach := 150,
    exangChoice := "Chest pain after exercise", oldpeak := 3,
    slopeChoice := "Upsloping (gradual increase)", ca := 0,
    thalChoice := "Normal blood flow", smoking := true, alcohol := false,
    physical_activity := "Low", stress := "High" }

/-- The encoded form of `c3Input` (every required field set, thal index 0
encoding to 1). -/
def c3Encoded : Encoded :=
  { age := 55, sex := 1, cp := 0, trestbps := 140, chol := 250, fbs := 1,
    family_history := 0, restecg := 0, thalach := 150, exang := 1,
    oldpeak := 3, slope := 0, ca := 0, thal := 1, smoking := true,
    alcohol := false, physical_activity := "Low", stress := "High" }

/-- A raw record identical to `c3Input` except its age field is still
unset — one required field at its sentinel. -/
def c2Input : RawInput := { c3Input with age := none }

/-- A record on which exactly one heuristic rule fires: resting blood
pressure 140 (> 130, weight 3) with every other rule condition false. -/
def c6Input : RawInput :=
  { age := some 40, sexChoice := "Female", cpChoice := "Asymptomatic (no pain)",
    trestbps := 140, chol := 200, fbsChoice := "≤120 mg/dl (Normal)",
    familyHistoryChoice := "No", restecgChoice := "Normal ECG", thalach := 150,
    exangChoice := "No chest pain after exercise", oldpeak := 1,
    slopeChoice := "Flat (no change)", ca := 0, thalChoice := "Fixed defect",
    smoking := false, alcohol := false, physical_activity := "High",
    stress := "Low" }

/-- The encoded form of `c6Input`. -/
def c6Encoded : Encoded :=
  { age := 40, sex := 0, cp := 3, trestbps := 140, chol := 200, fbs := 0,
    family_history := 0, restecg := 0, thalach := 150, exang := 0,
    oldpeak := 1, slope := 1, ca := 0, thal := 2, smoking := false,
    alcohol := false, physical_activity := "High", stress := "Low" }

/-- The pie chart the single-factor branch produces on `c6Input` under a
constantly-high-risk model: slices [3, 3]. -/
def c6Pie : PieChart :=
  { slices := [3, 3], labels := ["High blood pressure detected.", "Other"],
    colors := ["#FF7043", "#E0E0E0"], startangle := 90,
    title := "Risk Factor Severity Contribution" }

/-- Row count of the first table among the PDF elements, if any. -/
def firstTableRowCount (es : List PdfElement) : Option ℕ :=
  (es.filterMap fun e =>
    match e with
    | PdfElement.table rows => some rows.length
    | _ => none).head?

/-- Each of the ten heuristic rules appends to `risk_factors` and
`weights` together, so the two lists always have the same length. -/
theorem rf_ws_length (p : Encoded) : (risk_factors p).length = (weights p).length := by
  simp only [risk_factors, weights, List.length_append, apply_ite List.length,
    List.length_cons, List.length_nil]

/-- Every weight a rule can append is one of 1, 2, 3, 4. -/
theorem mem_weights_cases (p : Encoded) : ∀ w ∈ weights p, w = 1 ∨ w = 2 ∨ w = 3 ∨ w = 4 := by
  intro w hw
  simp only [weights, List.mem_append] at hw
  rcases hw with ((((((((h | h) | h) | h) | h) | h) | h) | h) | h) | h <;>
    (split at h <;> simp_all)

/-- The weights of the firing rules sum to at most 3+3+2+2+4+2+2+1+2+1 = 22. -/
theorem weights_sum_le (p : Encoded) : (weights p).sum ≤ 22 := by
  simp only [weights, List.sum_append]
  have h1 : (if p.trestbps > 130 then [(3:ℤ)] else []).sum ≤ 3 := by split <;> norm_num
  have h2 : (if p.chol > 240 then [(3:ℤ)] else []).sum ≤ 3 := by split <;> norm_num
  have h3 : (if p.fbs = 1 then [(2:ℤ)] else []).sum ≤ 2 := by split <;> norm_num
  have h4 : (if p.exang = 1 then [(2:ℤ)] else []).sum ≤ 2 := by split <;> norm_num
  have h5 : (if p.oldpeak > 2 then [(4:ℤ)] else []).sum ≤ 4 := by split <;> norm_num
  have h6 : (if p.family_history = 1 then [(2:ℤ)] else []).sum ≤ 2 := by split <;> norm_num
  have h7 : (if p.smoking then [(2:ℤ)] else []).sum ≤ 2 := by split <;> norm_num
  have h8 : (if p.alcohol then [(1:ℤ)] else []).sum ≤ 1 := by split <;> norm_num
  have h9 : (if p.physical_activity = "Low" then [(2:ℤ)] else []).sum ≤ 2 := by split <;> norm_num
  have h10 : (if p.stress = "High" then [(1:ℤ)] else []).sum ≤ 1 := by split <;> norm_num
  linarith

/-- C3: On the worked example (age 55, bp 140, chol 250, fbs 1, exang 1,
oldpeak 3.0, smoker, low activity, high stress, no family history, no
alcohol), the heuristic explainer produces exactly these eight risk
factors in rule order with weights [3,3,2,2,4,2,2,1], weight sum 19, and
sets the age note since age > 50. -/
theorem c3_worked_example_explainer :
    (resultData (generateReport (fun _ => 0) "2026-10-12" (3/4) c3Input)).map
      (fun d => (d.risk_factors, d.weights, d.weights.sum, d.age_note)) =
    some (["High blood pressure detected.",
           "High cholesterol level.",
           "High fasting blood sugar (possible diabetes risk).",
           "Exercise-induced chest pain is a warning sign.",
           "Significant ST depression (possible ischemia).",
           "Smoking increases risk.",
           "Low physical activity is a risk factor.",
           "High stress levels may contribute to heart disease."],
          ([3, 3, 2, 2, 4, 2, 2, 1], (19,
           "Since age is a natural risk factor, regular screenings are recommended."))) := by
  decide

/-- C8: The non-model pipeline is deterministic — identical raw records
encode identically, and then yield identical feature vectors, identical
risk-factor lists and identical weights. -/
theorem c8_nonmodel_determinism (r₁ r₂ : RawInput) (h : r₁ = r₂) :
    encode r₁ = encode r₂ ∧
    ∀ p₁ p₂, encode r₁ = some p₁ → encode r₂ = some p₂ →
      input_data p₁ = input_data p₂ ∧ risk_factors p₁ = risk_factors p₂ ∧
      weights p₁ = weights p₂ := by
  subst h
  refine ⟨rfl, fun p₁ p₂ h₁ h₂ => ?_⟩
  rw [h₁] at h₂
  cases Option.some.inj h₂
  exact ⟨rfl, rfl, rfl⟩

/-- Witness for C8 at the concrete worked-example record. -/
theorem c8_nonmodel_determinism_witness :
    input_data c3Encoded = input_data c3Encoded ∧
    risk_factors c3Encoded = risk_factors c3Encoded ∧
    weights c3Encoded = weights c3Encoded :=
  (c8_nonmodel_determinism c3Input c3Input rfl).2 c3Encoded c3Encoded
    (by decide) (by decide)

/-- C9: After rule evaluation, `risk_factors` and `weights` have equal
length, every weight is in {1,2,3,4}, the weight sum is at most 22, and
the age note contributes to neither list (both are independent of age). -/
theorem c9_rule_evaluation_invariants (p : Encoded) :
    (risk_factors p).length = (weights p).length ∧
    (∀ w ∈ weights p, w = 1 ∨ w = 2 ∨ w = 3 ∨ w = 4) ∧
    (weights p).sum ≤ 22 ∧
    (∀ a : ℤ, risk_factors { p with age := a } = risk_factors p ∧
              weights { p with age := a } = weights p) :=
  ⟨rf_ws_length p, mem_weights_cases p, weights_sum_le p, fun _ => ⟨rfl, rfl⟩⟩

/-- Witness for C9 at the concrete worked-example record. -/
theorem c9_rule_evaluation_invariants_witness :
    (risk_factors c3Encoded).length = (weights c3Encoded).length ∧
    ((2:ℤ) = 1 ∨ (2:ℤ) = 2 ∨ (2:ℤ) = 3 ∨ (2:ℤ) = 4) ∧
    (weights c3Encoded).sum ≤ 22 :=
  ⟨(c9_rule_evaluation_invariants c3Encoded).1,
   (c9_rule_evaluation_invariants c3Encoded).2.1 2 (by decide),
   (c9_rule_evaluation_invariants c3Encoded).2.2.1⟩

/-- C10: both resource surfaces name the same three organizations; the
first two URLs agree, but the third diverges — the interactive page links
to the `prevention.htm` address while the PDF embeds the
`prevention/index.html` address. -/
theorem c10_resource_url_divergence :
    pageResources.map Prod.fst =
      ["World Health Organization (WHO)", "World Heart Federation",
       "Healthy Lifestyle Guide"] ∧
    pdfResources = (pageResources.map Prod.fst).zipWith
      (fun name url => name ++ ": " ++ url)
      ["https://www.who.int/india/health-topics/cardiovascular-diseases",
       "https://world-heart-federation.org/",
       "https://www.cdc.gov/heart-disease/prevention/index.html"] ∧
    pageResources.map Prod.snd =
      ["https://www.who.int/india/health-topics/cardiovascular-diseases",
       "https://world-heart-federation.org/",
       "https://www.cdc.gov/heart-disease/prevention.htm"] ∧
    "https://www.cdc.gov/heart-disease/prevention.htm" ≠
      "https://www.cdc.gov/heart-disease/prevention/index.html" := by
  decide


/-- Inverting the sex encoding: a defined value is 0 for "Female" and 1
otherwise, and the placeholder was not chosen. -/
theorem sexOf_some (r : RawInput) (v : ℤ) (h : sexOf r = some v) :
    v = if r.sexChoice = "Female" then 0 else 1 := by
  unfold sexOf at h
  split at h
  · simp at h
  · exact (Option.some.inj h).symm

/-- Inverting the chest-pain encoding: a defined value is the 0-based
option index. -/
theorem cpOf_some (r : RawInput) (v : ℤ) (h : cpOf r = some v) :
    v = (cpOptions.indexOf r.cpChoice : ℤ) := by
  unfold cpOf at h
  split at h
  · simp at h
  · exact (Option.some.inj h).symm

/-- Inverting the exercise-angina encoding. -/
theorem exangOf_some (r : RawInput) (v : ℤ) (h : exangOf r = some v) :
    v = if r.exangChoice = "No chest pain after exercise" then 0 else 1 := by
  unfold exangOf at h
  split at h
  · simp at h
  · exact (Option.some.inj h).symm

/-- Inverting the slope encoding. -/
theorem slopeOf_some (r : RawInput) (v : ℤ) (h : slopeOf r = some v) :
    v = (slopeOptions.indexOf r.slopeChoice : ℤ) := by
  unfold slopeOf at h
  split at h
  · simp at h
  · exact (Option.some.inj h).symm

/-- Inverting the thal encoding: a defined value is the 0-based option
index plus one. -/
theorem thalOf_some (r : RawInput) (v : ℤ) (h : thalOf r = some v) :
    v = (thalOptions.indexOf r.thalChoice : ℤ) + 1 := by
  unfold thalOf at h
  split at h
  · simp at h
  · rw [← Option.some.inj h]

/-- A successful `encode` pins down every field of the encoded record. -/
theorem encode_some (r : RawInput) (p : Encoded) (h : encode r = some p) :
    r.age = some p.age ∧ sexOf r = some p.sex ∧ cpOf r = some p.cp ∧
    exangOf r = some p.exang ∧ slopeOf r = some p.slope ∧ thalOf r = some p.thal ∧
    p.trestbps = r.trestbps ∧ p.chol = r.chol ∧ p.fbs = fbsOf r ∧
    p.family_history = familyHistoryOf r ∧ p.restecg = restecgOf r ∧
    p.thalach = r.thalach ∧ p.oldpeak = r.oldpeak ∧ p.ca = r.ca ∧
    p.smoking = r.smoking ∧ p.alcohol = r.alcohol ∧
    p.physical_activity = r.physical_activity ∧ p.stress = r.stress := by
  unfold encode at h
  split at h
  · cases Option.some.inj h
    simp_all
  · simp at h

/-- If any of the six required fields is unset, `encode` fails — the
Lean counterpart of Python's `None in [age, sex, cp, exang, slope, thal]`. -/
theorem encode_none_of_missing (r : RawInput)
    (h : r.age = none ∨ sexOf r = none ∨ cpOf r = none ∨ exangOf r = none ∨
         slopeOf r = none ∨ thalOf r = none) :
    encode r = none := by
  unfold encode
  rcases hage : r.age with _ | a <;>
    rcases hsex : sexOf r with _ | s <;>
      rcases hcp : cpOf r with _ | c <;>
        rcases hex : exangOf r with _ | e <;>
          rcases hsl : slopeOf r with _ | sl <;>
            rcases hth : thalOf r with _ | t <;>
              simp_all

/-- A successful action comes from a successfully encoded record, and its
data is the success branch's output on that record. -/
theorem success_inv (m : List ℚ → ℤ) (today : String) (aspect : ℚ)
    (r : RawInput) (d : ReportData)
    (h : generateReport m today aspect r = ActionResult.success d) :
    ∃ p, encode r = some p ∧ d = runSuccess m today aspect p := by
  unfold generateReport at h
  split at h
  · cases h
  · rename_i p hp
    exact ⟨p, hp, (ActionResult.success.inj h).symm⟩

/-- C1: For every record with all required fields set, the feature vector
passed to the model is exactly the 13 values [age, sex, chest_pain_type,
resting_bp, cholesterol, fasting_blood_sugar, resting_ecg, max_heart_rate,
exercise_angina, st_depression, slope, major_vessels, thal] in that order,
with each categorical field encoded by its rule — in particular thal is
its 0-based option index plus one. -/
theorem c1_feature_vector_encoding (m : List ℚ → ℤ) (today : String) (aspect : ℚ)
    (r : RawInput) (p : Encoded) (h : encode r = some p) :
    (∃ d, generateReport m today aspect r = ActionResult.success d ∧
       d.input_data =
         [(p.age : ℚ), (p.sex : ℚ), (p.cp : ℚ), (p.trestbps : ℚ), (p.chol : ℚ),
          (p.fbs : ℚ), (p.restecg : ℚ), (p.thalach : ℚ), (p.exang : ℚ),
          p.oldpeak, (p.slope : ℚ), (p.ca : ℚ), (p.thal : ℚ)]) ∧
    r.age = some p.age ∧
    p.sex = (if r.sexChoice = "Female" then 0 else 1) ∧
    p.cp = (cpOptions.indexOf r.cpChoice : ℤ) ∧
    p.trestbps = r.trestbps ∧ p.chol = r.chol ∧
    p.fbs = (if r.fbsChoice = "≤120 mg/dl (Normal)" then 0 else 1) ∧
    p.restecg = (restecgOptions.indexOf r.restecgChoice : ℤ) ∧
    p.thalach = r.thalach ∧
    p.exang = (if r.exangChoice = "No chest pain after exercise" then 0 else 1) ∧
    p.oldpeak = r.oldpeak ∧
    p.slope = (slopeOptions.indexOf r.slopeChoice : ℤ) ∧
    p.ca = r.ca ∧
    p.thal = (thalOptions.indexOf r.thalChoice : ℤ) + 1 := by
  obtain ⟨ha, hs, hc, he, hsl, ht, h1, h2, h3, h4, h5, h6, h7, h8, -, -, -, -⟩ :=
    encode_some r p h
  refine ⟨⟨runSuccess m today aspect p, ?_, rfl⟩, ha, sexOf_some r p.sex hs,
    cpOf_some r p.cp hc, h1, h2, ?_, h5, h6, exangOf_some r p.exang he, h7,
    slopeOf_some r p.slope hsl, h8, thalOf_some r p.thal ht⟩
  · unfold generateReport
    rw [h]
  · rw [h3]
    unfold fbsOf
    rfl

/-- Witness for C1 at the worked-example record, whose thal choice is the
option of index 0 and encodes to 1. -/
theorem c1_feature_vector_encoding_witness :
    c3Encoded.thal = (thalOptions.indexOf c3Input.thalChoice : ℤ) + 1 ∧
    (∃ d, generateReport (fun _ => 0) "2026-10-12" 1 c3Input = ActionResult.success d ∧
       d.input_data =
         [(c3Encoded.age : ℚ), (c3Encoded.sex : ℚ), (c3Encoded.cp : ℚ),
          (c3Encoded.trestbps : ℚ), (c3Encoded.chol : ℚ), (c3Encoded.fbs : ℚ),
          (c3Encoded.restecg : ℚ), (c3Encoded.thalach : ℚ), (c3Encoded.exang : ℚ),
          c3Encoded.oldpeak, (c3Encoded.slope : ℚ), (c3Encoded.ca : ℚ),
          (c3Encoded.thal : ℚ)]) :=
  ⟨(c1_feature_vector_encoding (fun _ => 0) "2026-10-12" 1 c3Input c3Encoded
      (by decide)).2.2.2.2.2.2.2.2.2.2.2.2.2,
   (c1_feature_vector_encoding (fun _ => 0) "2026-10-12" 1 c3Input c3Encoded
      (by decide)).1⟩

/-- C2: When any of the six required fields {age, sex, chest_pain_type,
exercise_angina, slope, thal} is still at its unset sentinel, "Generate
Report" yields only the visible validation error — no report data of any
kind — and the outcome does not consult the model, the date, or the chart
geometry at all. -/
theorem c2_missing_required_rejects (m : List ℚ → ℤ) (today : String) (aspect : ℚ)
    (r : RawInput)
    (h : r.age = none ∨ sexOf r = none ∨ cpOf r = none ∨ exangOf r = none ∨
         slopeOf r = none ∨ thalOf r = none) :
    generateReport m today aspect r =
      ActionResult.validationError
        "⚠️ Please fill in all fields before generating the report." ∧
    resultData (generateReport m today aspect r) = none ∧
    (∀ m₂ today₂ aspect₂, generateReport m₂ today₂ aspect₂ r =
       generateReport m today aspect r) := by
  have henc := encode_none_of_missing r h
  refine ⟨?_, ?_, ?_⟩
  · unfold generateReport
    rw [henc]
  · unfold generateReport resultData
    rw [henc]
  · intro m₂ today₂ aspect₂
    unfold generateReport
    rw [henc]

/-- Witness for C2: the worked-example record with its age deleted is
rejected. -/
theorem c2_missing_required_rejects_witness :
    generateReport (fun _ => 0) "2026-10-12" 1 c2Input =
      ActionResult.validationError
        "⚠️ Please fill in all fields before generating the report." ∧
    resultData (generateReport (fun _ => 0) "2026-10-12" 1 c2Input) = none ∧
    (∀ m₂ today₂ aspect₂, generateReport m₂ today₂ aspect₂ c2Input =
       generateReport (fun _ => 0) "2026-10-12" 1 c2Input) :=
  c2_missing_required_rejects (fun _ => 0) "2026-10-12" 1 c2Input
    (Or.inl (by decide))

/-- C4: On every successful action, the pie chart is produced if and only
if the prediction value is 0 ("High Risk") and the risk-factor list is
non-empty; in particular a "Low Risk" (1) prediction never yields one. -/
theorem c4_pie_condition (m : List ℚ → ℤ) (today : String) (aspect : ℚ)
    (r : RawInput) (d : ReportData)
    (h : generateReport m today aspect r = ActionResult.success d) :
    (d.pie.isSome ↔ (d.prediction = 0 ∧ d.risk_factors ≠ [])) ∧
    (d.prediction = 1 → d.pie = none) := by
  obtain ⟨p, -, rfl⟩ := success_inv m today aspect r d h
  constructor
  · show (pieChart _ _ _).isSome ↔ _
    unfold pieChart
    split
    · rename_i hc
      simpa using hc
    · rename_i hc
      simpa using hc
  · intro h1
    show pieChart _ _ _ = none
    unfold pieChart
    have h0 : (runSuccess m today aspect p).prediction ≠ 0 := by
      rw [h1]
      decide
    split
    · rename_i hc
      exact absurd hc.1 h0
    · rfl

/-- Witness for C4 at the worked-example record under a constant
high-risk model. -/
theorem c4_pie_condition_witness :
    ((runSuccess (fun _ => 0) "2026-10-12" 1 c3Encoded).pie.isSome ↔
      ((runSuccess (fun _ => 0) "2026-10-12" 1 c3Encoded).prediction = 0 ∧
       (runSuccess (fun _ => 0) "2026-10-12" 1 c3Encoded).risk_factors ≠ [])) ∧
    ((runSuccess (fun _ => 0) "2026-10-12" 1 c3Encoded).prediction = 1 →
     (runSuccess (fun _ => 0) "2026-10-12" 1 c3Encoded).pie = none) :=
  c4_pie_condition (fun _ => 0) "2026-10-12" 1 c3Input
    (runSuccess (fun _ => 0) "2026-10-12" 1 c3Encoded) rfl

/-- A one-element integer list sums to its head. -/
theorem sum_eq_headI_of_length_one (l : List ℤ) (h : l.length = 1) :
    l.sum = l.headI := by
  rcases l with _ | ⟨a, _ | ⟨b, t⟩⟩ <;> simp_all

/-- C6: When exactly one risk factor fired and the pie chart is produced,
its two slices are [that factor's weight, sum of all weights] with labels
[that factor's text, "Other"]; with a single factor the sum equals the
factor's own weight, so both slices are equal. -/
theorem c6_single_factor_pie (m : List ℚ → ℤ) (today : String) (aspect : ℚ)
    (r : RawInput) (d : ReportData) (pc : PieChart)
    (h : generateReport m today aspect r = ActionResult.success d)
    (h1 : d.risk_factors.length = 1) (hp : d.pie = some pc) :
    pc.slices = [d.weights.headI, d.weights.sum] ∧
    pc.labels = [d.risk_factors.headI, "Other"] ∧
    d.weights.sum = d.weights.headI ∧
    pc.slices = [d.weights.headI, d.weights.headI] := by
  obtain ⟨p, -, rfl⟩ := success_inv m today aspect r d h
  have hrf : (runSuccess m today aspect p).risk_factors = risk_factors p := rfl
  have hw : (runSuccess m today aspect p).weights = weights p := rfl
  have hpie : (runSuccess m today aspect p).pie =
      pieChart (m (input_data p)) (risk_factors p) (weights p) := rfl
  rw [hrf] at h1
  rw [hrf, hw]
  rw [hpie] at hp
  have hlen : (weights p).length = 1 := by
    rw [← rf_ws_length p]
    exact h1
  have hsum : (weights p).sum = (weights p).headI :=
    sum_eq_headI_of_length_one _ hlen
  unfold pieChart at hp
  split at hp
  · cases (Option.some.inj hp).symm
    exact ⟨rfl, rfl, hsum, by rw [hsum]⟩
  · cases hp

/-- Witness for C6: on the single-factor record (one rule of weight 3)
under a constant high-risk model the pie has slices [3, 3]. -/
theorem c6_single_factor_pie_witness :
    c6Pie.slices = [3, 3] ∧
    (c6Pie.slices =
      [(runSuccess (fun _ => 0) "2026-10-12" 1 c6Encoded).weights.headI,
       (runSuccess (fun _ => 0) "2026-10-12" 1 c6Encoded).weights.sum] ∧
     c6Pie.labels =
      [(runSuccess (fun _ => 0) "2026-10-12" 1 c6Encoded).risk_factors.headI,
       "Other"] ∧
     (runSuccess (fun _ => 0) "2026-10-12" 1 c6Encoded).weights.sum =
       (runSuccess (fun _ => 0) "2026-10-12" 1 c6Encoded).weights.headI ∧
     c6Pie.slices =
      [(runSuccess (fun _ => 0) "2026-10-12" 1 c6Encoded).weights.headI,
       (runSuccess (fun _ => 0) "2026-10-12" 1 c6Encoded).weights.headI]) :=
  ⟨by decide,
   c6_single_factor_pie (fun _ => 0) "2026-10-12" 1 c6Input
     (runSuccess (fun _ => 0) "2026-10-12" 1 c6Encoded) c6Pie rfl (by decide)
     (by decide)⟩

/-- C7: On every successful action, the "no major risk factors" message
appears exactly when the risk-factor list is empty and no age note
applies (age ≤ 50); the displayed list is the heuristic list in rule
order, and the age note is tracked separately, present iff age > 50. -/
theorem c7_no_risk_message (m : List ℚ → ℤ) (today : String) (aspect : ℚ)
    (r : RawInput) (p : Encoded) (d : ReportData)
    (he : encode r = some p)
    (h : generateReport m today aspect r = ActionResult.success d) :
    (d.noRiskInfo = true ↔ (d.risk_factors = [] ∧ p.age ≤ 50)) ∧
    d.risk_factors = risk_factors p ∧
    d.age_note = age_note p ∧
    (d.age_note ≠ "" ↔ 50 < p.age) := by
  obtain ⟨p₂, hp₂, rfl⟩ := success_inv m today aspect r d h
  rw [he] at hp₂
  cases Option.some.inj hp₂
  refine ⟨?_, rfl, rfl, ?_⟩
  · show ((risk_factors p).length == 0 && (age_note p == "")) = true ↔ _
    rw [Bool.and_eq_true, beq_iff_eq, beq_iff_eq, List.length_eq_zero]
    unfold age_note
    split
    · rename_i hgt
      constructor
      · rintro ⟨-, hne⟩
        exact absurd hne (by decide)
      · rintro ⟨-, hle⟩
        exact absurd hle (not_le.mpr hgt)
    · rename_i hle
      constructor
      · rintro ⟨h1, -⟩
        exact ⟨h1, by omega⟩
      · rintro ⟨h1, -⟩
        exact ⟨h1, rfl⟩
  · show age_note p ≠ "" ↔ _
    unfold age_note
    split
    · rename_i hgt
      exact ⟨fun _ => hgt, fun _ => by decide⟩
    · rename_i hle
      constructor
      · intro hne
        exact absurd rfl hne
      · intro hgt
        exact absurd hgt hle

/-- Witness for C7 at the worked-example record (eight factors, age 55). -/
theorem c7_no_risk_message_witness :
    ((runSuccess (fun _ => 0) "2026-10-12" 1 c3Encoded).noRiskInfo = true ↔
      ((runSuccess (fun _ => 0) "2026-10-12" 1 c3Encoded).risk_factors = [] ∧
       c3Encoded.age ≤ 50)) ∧
    (runSuccess (fun _ => 0) "2026-10-12" 1 c3Encoded).risk_factors =
      risk_factors c3Encoded ∧
    (runSuccess (fun _ => 0) "2026-10-12" 1 c3Encoded).age_note =
      age_note c3Encoded ∧
    ((runSuccess (fun _ => 0) "2026-10-12" 1 c3Encoded).age_note ≠ "" ↔
      50 < c3Encoded.age) :=
  c7_no_risk_message (fun _ => 0) "2026-10-12" 1 c3Input c3Encoded
    (runSuccess (fun _ => 0) "2026-10-12" 1 c3Encoded) (by decide) rfl

/-- C5 counterexample: on the worked-example input the patient-detail
table of the generated document has 12 rows in total — a header row plus
11 data rows — not the claimed 12 data rows plus a header (13). -/
theorem c5_table_rows_counterexample :
    (resultData (generateReport (fun _ => 0) "2026-10-12" 1 c3Input)).map
      (fun d => firstTableRowCount d.elements) = some (some 12) ∧
    (12 : ℕ) ≠ 13 := by
  decide

/-- C5 (amended): every successful action's document contains, in fixed
order: title, date, prediction line, a patient-detail table with 11 data
rows plus a header row, a risk-factors section, a recommendations section
of exactly 6 fixed items, the bar chart image, the optional pie chart
image, and a resources section of exactly 3 fixed items. -/
theorem c5_document_structure (m : List ℚ → ℤ) (today : String) (aspect : ℚ)
    (r : RawInput) (p : Encoded) (d : ReportData)
    (he : encode r = some p)
    (h : generateReport m today aspect r = ActionResult.success d) :
    ∃ riskSec pieSec,
      d.elements =
        [PdfElement.paragraph "Heart Disease Prediction Report" "TitleStyle",
         PdfElement.spacer, PdfElement.spacer, PdfElement.spacer,
         PdfElement.paragraph ("Date: " ++ today) "NormalStyle", PdfElement.spacer,
         PdfElement.paragraph ("Prediction: " ++
           (if d.prediction = 1 then "Low Risk" else "High Risk")) "PredictionStyle",
         PdfElement.spacer, PdfElement.hr, PdfElement.spacer,
         PdfElement.table (detailData p), PdfElement.spacer,
         PdfElement.paragraph "Risk Factors:" "RiskHeadingStyle"] ++
        riskSec ++
        [PdfElement.spacer, PdfElement.hr, PdfElement.spacer,
         PdfElement.paragraph "Recommendations:" "RecHeadingStyle"] ++
        recs.map (fun s => PdfElement.paragraph ("- " ++ s) "NormalStyle") ++
        [PdfElement.spacer, PdfElement.image "bar" 400 (400 * aspect)] ++
        pieSec ++
        [PdfElement.paragraph "Useful Resources:" "ResourceHeadingStyle"] ++
        pdfResources.map (fun s => PdfElement.paragraph ("- " ++ s) "NormalStyle") ∧
      (detailData p).length = 12 ∧
      (detailData p).headI = ["Attribute", "Value"] ∧
      recs.length = 6 ∧ pdfResources.length = 3 ∧
      riskSec ≠ [] ∧
      (pieSec = [] ∨ pieSec = [PdfElement.image "pie" 400 200, PdfElement.spacer]) := by
  obtain ⟨p₂, hp₂, rfl⟩ := success_inv m today aspect r d h
  rw [he] at hp₂
  cases Option.some.inj hp₂
  refine ⟨(if risk_factors p ≠ [] then (risk_factors p).map
        (fun s => PdfElement.paragraph ("- " ++ s) "NormalStyle")
      else [PdfElement.paragraph "None detected" "NormalStyle"]) ++
      (if age_note p ≠ "" then
        [PdfElement.paragraph ("- " ++ age_note p) "NormalStyle"] else []),
    (if m (input_data p) = 0 ∧ risk_factors p ≠ [] then
      [PdfElement.image "pie" 400 200, PdfElement.spacer] else []),
    ?_, by simp [detailData], rfl, rfl, rfl, ?_, ?_⟩
  · simp only [runSuccess, pdfElements, List.append_assoc, List.cons_append,
      List.nil_append]
  · rcases hrf : risk_factors p with _ | ⟨a, l⟩
    · simp [hrf]
    · simp [hrf]
  · split
    · simp
    · simp

/-- Witness for the amended C5 at the worked-example record. -/
theorem c5_document_structure_witness :
    ∃ riskSec pieSec,
      (runSuccess (fun _ => 0) "2026-10-12" 1 c3Encoded).elements =
        [PdfElement.paragraph "Heart Disease Prediction Report" "TitleStyle",
         PdfElement.spacer, PdfElement.spacer, PdfElement.spacer,
         PdfElement.paragraph ("Date: " ++ "2026-10-12") "NormalStyle", PdfElement.spacer,
         PdfElement.paragraph ("Prediction: " ++
           (if (runSuccess (fun _ => 0) "2026-10-12" 1 c3Encoded).prediction = 1
            then "Low Risk" else "High Risk")) "PredictionStyle",
         PdfElement.spacer, PdfElement.hr, PdfElement.spacer,
         PdfElement.table (detailData c3Encoded), PdfElement.spacer,
         PdfElement.paragraph "Risk Factors:" "RiskHeadingStyle"] ++
        riskSec ++
        [PdfElement.spacer, PdfElement.hr, PdfElement.spacer,
         PdfElement.paragraph "Recommendations:" "RecHeadingStyle"] ++
        recs.map (fun s => PdfElement.paragraph ("- " ++ s) "NormalStyle") ++
        [PdfElement.spacer, PdfElement.image "bar" 400 (400 * 1)] ++
        pieSec ++
        [PdfElement.paragraph "Useful Resources:" "ResourceHeadingStyle"] ++
        pdfResources.map (fun s => PdfElement.paragraph ("- " ++ s) "NormalStyle") ∧
      (detailData c3Encoded).length = 12 ∧
      (detailData c3Encoded).headI = ["Attribute", "Value"] ∧
      recs.length = 6 ∧ pdfResources.length = 3 ∧
      riskSec ≠ [] ∧
      (pieSec = [] ∨ pieSec = [PdfElement.image "pie" 400 200, PdfElement.spacer]) :=
  c5_document_structure (fun _ => 0) "2026-10-12" 1 c3Input c3Encoded
    (runSuccess (fun _ => 0) "2026-10-12" 1 c3Encoded) (by decide) rfl

end HeartApp
